import Mathlib

/-!
# A shallow embedding of the pointer-bumping heap allocator (pb-alloc.c)

The source is a bump allocator over a single `mmap`-reserved region.  Its
mutable state is three globals (`start_addr`, `end_addr`, `free_addr`) plus
the bytes of the region; we model that state as a `Heap` record with a
byte-addressed memory `mem : Nat → Nat` (each cell holds one byte value).
Address-typed values (`intptr_t`) are represented by their 64-bit pattern
as a natural below `2 ^ 64`; a real address is below `2 ^ 63`, so its
pattern and its signed value coincide.  Every site where the source machine
arithmetic can wrap is modelled with an explicit `% 2 ^ 64`: the `size_t`
products and sums (`nmemb * size` in `calloc`, `size + sizeof(header_s)` in
`malloc`) and the `intptr_t` sum `free_addr + total_size` in `malloc`,
whose subsequent comparison against `end_addr` is a signed one and is
modelled by comparing the two patterns through `toSigned`, the
two's-complement reading of a 64-bit pattern.  (For huge requests that sum
wraps negative, the signed comparison fails, and `malloc` bogusly succeeds;
the model reproduces this.)

Each operation of the source becomes a pure function from a `Heap` and its
arguments to a result and a new `Heap`.  `NULL` pointers are `none`.
The model starts from the RESERVED state (after `init`): `init` is idempotent
and every entry point funnels through it, so all observable behaviour of the
allocator is behaviour on an initialized heap, which `initHeap` constructs
the way `init` does (frontier at the base of a zero-filled region of
`HEAP_SIZE` bytes).
-/

/-- The modulus of `size_t` / 64-bit arithmetic. -/
def SIZE_T_MOD : Nat := 2 ^ 64

/-- pb-alloc.c line 44: `HEAP_SIZE` is `GB(2)` bytes. -/
def HEAP_SIZE : Nat := 2147483648

/-- The allocator state: pb-alloc.c lines 66-72 (the three globals) together
with the bytes of the reserved region.  `mem a` is the byte stored at
address `a`. -/
structure Heap where
  start_addr : Nat
  end_addr : Nat
  free_addr : Nat
  mem : Nat → Nat

/-- pb-alloc.c lines 144-150: the alignment adjustment `malloc` applies to
`free_addr` before carving the new block.  With `r = free_addr % 16`:
if `r < 8` the code sets `free_addr + 24 - r`, otherwise `free_addr + 8 - r`.
(Note that the second branch moves the address backwards when `8 < r ≤ 15`;
both branches land on an address congruent to `8` mod `16`.) -/
def bump (f : Nat) : Nat :=
  if f % 16 < 8 then f + 24 - f % 16 else f + 8 - f % 16

/-- The byte-level semantics of the 8-byte store `header_ptr->size = size`
(pb-alloc.c line 184): the little-endian bytes of `v` are written at
addresses `a` to `a + 7`. -/
def storeHeader (m : Nat → Nat) (a v : Nat) : Nat → Nat :=
  fun x => if a ≤ x ∧ x < a + 8 then v / 256 ^ (x - a) % 256 else m x

/-- The byte-level semantics of the 8-byte load `old_header->size`
(pb-alloc.c line 271): the little-endian value of the 8 bytes at `a`. -/
def loadHeader (m : Nat → Nat) (a : Nat) : Nat :=
  m a + 256 * m (a + 1) + 65536 * m (a + 2) + 16777216 * m (a + 3) +
    4294967296 * m (a + 4) + 1099511627776 * m (a + 5) +
    281474976710656 * m (a + 6) + 72057594037927936 * m (a + 7)

/-- `memset(a, v, n)` on the byte memory `m`. -/
def memset (m : Nat → Nat) (a v n : Nat) : Nat → Nat :=
  fun x => if a ≤ x ∧ x < a + n then v else m x

/-- `memcpy(dst, src, n)` on the byte memory `m`; the source bytes are read
from `m`, which matches the C call since `realloc` only copies between
non-overlapping regions. -/
def memcpy (m : Nat → Nat) (dst src n : Nat) : Nat → Nat :=
  fun x => if dst ≤ x ∧ x < dst + n then m (src + (x - dst)) else m x

/-- pb-alloc.c lines 82-112, `init ()`: the RESERVED state right after the
first call, with the region of `HEAP_SIZE` zero-filled bytes based at the
page-aligned address `mmap` returned.  Later calls leave the state alone, so
every operation below acts on such a state. -/
def initHeap (base : Nat) : Heap :=
  { start_addr := base, end_addr := base + HEAP_SIZE, free_addr := base,
    mem := fun _ => 0 }

/-- The signed (`intptr_t`) value of a 64-bit pattern: the two's-complement
reading, negative for patterns at or above `2 ^ 63`. -/
def toSigned (x : Nat) : Int :=
  if x < 2 ^ 63 then (x : Int) else (x : Int) - 2 ^ 64

/-- pb-alloc.c lines 126-189, `malloc (size_t size)`.

The source mutates `free_addr` in place; flattened into a state-passing
function its steps are: return `NULL` on `size == 0` (line 131); set
`free_addr` to the aligned value (lines 144-150, here `bump`); compute
`total_size = size + sizeof(header_s)` in `size_t` (line 155); compute
`intptr_t new_free_addr = free_addr + total_size` (line 168), whose 64-bit
pattern is the sum of the patterns mod `2 ^ 64`; if the signed comparison
`new_free_addr > end_addr` holds, return `NULL` with `free_addr` left at
the aligned value (lines 173-175); otherwise set `free_addr` to
`new_free_addr`, write `size` into the header at the aligned address, and
return the address 8 bytes past the header (lines 179-187). -/
def malloc (h : Heap) (size : Nat) : Option Nat × Heap :=
  if size = 0 then (none, h)
  else if toSigned h.end_addr <
      toSigned ((bump h.free_addr + (size + 8) % SIZE_T_MOD) % SIZE_T_MOD) then
    (none, { h with free_addr := bump h.free_addr })
  else
    (some (bump h.free_addr + 8),
     { h with free_addr := (bump h.free_addr + (size + 8) % SIZE_T_MOD) % SIZE_T_MOD,
              mem := storeHeader h.mem (bump h.free_addr) size })

/-- pb-alloc.c lines 201-205, `free (void* ptr)`: a no-op. -/
def free (h : Heap) (_ptr : Option Nat) : Heap := h

/-- pb-alloc.c lines 219-232, `calloc (size_t nmemb, size_t size)`:
`block_size = nmemb * size` computed in `size_t` (so it wraps at `2 ^ 64`),
then `malloc(block_size)`, then `memset(block_ptr, 0, block_size)` when the
allocation succeeded. -/
def calloc (h : Heap) (nmemb size : Nat) : Option Nat × Heap :=
  match malloc h (nmemb * size % SIZE_T_MOD) with
  | (some p, h1) => (some p, { h1 with mem := memset h1.mem p 0 (nmemb * size % SIZE_T_MOD) })
  | (none, h1) => (none, h1)

/-- pb-alloc.c lines 250-294, `realloc (void* ptr, size_t size)`:
`NULL` pointer behaves as `malloc(size)` (lines 254-256); `size == 0` frees
(a no-op) and returns `NULL` (lines 260-263); otherwise the old size is read
from the header 8 bytes below `ptr` (lines 268-271); a request not larger
than the old size returns `ptr` unchanged (lines 275-277); a larger request
calls `malloc(size)` and, on success, copies `old_size` bytes from the old
block into the new one (lines 281-292). -/
def realloc (h : Heap) : Option Nat → Nat → Option Nat × Heap
  | none, size => malloc h size
  | some p, size =>
    if size = 0 then (none, free h (some p))
    else if size ≤ loadHeader h.mem (p - 8) then (some p, h)
    else
      match malloc h size with
      | (some q, h1) =>
          (some q, { h1 with mem := memcpy h1.mem q p (loadHeader h.mem (p - 8)) })
      | (none, h1) => (none, h1)

/-- A single byte store by the mutator into a block it owns (as the test
harness memtest.c does with `*y = 'a'`); the stored value is a byte. -/
def writeByte (h : Heap) (a v : Nat) : Heap :=
  { h with mem := fun x => if x = a then v % 256 else h.mem x }

/-- Specification-side allocate, the reference point for what
`allocate(count * size)` means when the mathematical product of `calloc`
arguments exceeds the `size_t` range and therefore corresponds to no
expressible C call.  It follows the words of spec section 4.2 with exact
arithmetic: null on zero size, the documented alignment adjustment, total
bytes `size + 8`, null without advancing the frontier on exhaustion, and
otherwise a header write and a bump by the total.  On every size below
`2 ^ 64 - 8` it agrees with `malloc` up to the failure frontier. -/
def allocateSpec (h : Heap) (size : Nat) : Option Nat × Heap :=
  if size = 0 then (none, h)
  else if h.end_addr < bump h.free_addr + (size + 8) then (none, h)
  else
    (some (bump h.free_addr + 8),
     { h with free_addr := bump h.free_addr + (size + 8),
              mem := storeHeader h.mem (bump h.free_addr) size })

/-! ## Shared facts about the alignment step and the byte-level header -/

/-- Both branches of the alignment adjustment land on an address congruent
to 8 mod 16, so the data pointer 8 bytes above it is 16-byte aligned. -/
theorem bump_mod16 (f : Nat) : bump f % 16 = 8 := by
  unfold bump
  split <;> omega

/-- The alignment adjustment moves the frontier back by at most 7 bytes
(the backward move happens exactly when `f % 16` is 9 to 15). -/
theorem bump_ge (f : Nat) : f ≤ bump f + 7 := by
  unfold bump
  split <;> omega

/-- Reading a byte inside a freshly stored header yields the matching
little-endian digit. -/
theorem storeHeader_get (m : Nat → Nat) (a v i : Nat) (hi : i < 8) :
    storeHeader m a v (a + i) = v / 256 ^ i % 256 := by
  unfold storeHeader
  rw [if_pos ⟨Nat.le_add_right a i, by omega⟩, Nat.add_sub_cancel_left]

/-- Loading the 8 bytes of a freshly stored header returns the stored value
reduced mod `2 ^ 64` (hence the value itself for any `size_t` argument). -/
theorem loadHeader_storeHeader (m : Nat → Nat) (a v : Nat) :
    loadHeader (storeHeader m a v) a = v % SIZE_T_MOD := by
  have h0 : storeHeader m a v a = v % 256 := by
    have := storeHeader_get m a v 0 (by omega)
    simpa using this
  have h1 := storeHeader_get m a v 1 (by omega)
  have h2 := storeHeader_get m a v 2 (by omega)
  have h3 := storeHeader_get m a v 3 (by omega)
  have h4 := storeHeader_get m a v 4 (by omega)
  have h5 := storeHeader_get m a v 5 (by omega)
  have h6 := storeHeader_get m a v 6 (by omega)
  have h7 := storeHeader_get m a v 7 (by omega)
  unfold loadHeader
  rw [h0, h1, h2, h3, h4, h5, h6, h7]
  show _ = v % 2 ^ 64
  omega

/-- A byte inside a `memset` range reads back as the filled value. -/
theorem memset_get (m : Nat → Nat) (a v n x : Nat) (h1 : a ≤ x) (h2 : x < a + n) :
    memset m a v n x = v := by
  unfold memset
  rw [if_pos ⟨h1, h2⟩]

/-- The failure path of `malloc`: when the signed comparison finds the
wrapped `new_free_addr` above the region end, the result is null and the
state keeps the alignment-adjusted frontier. -/
theorem malloc_fail_eq (h : Heap) (size : Nat) (hpos : 0 < size)
    (hfull : toSigned h.end_addr <
      toSigned ((bump h.free_addr + (size + 8) % SIZE_T_MOD) % SIZE_T_MOD)) :
    malloc h size = (none, { h with free_addr := bump h.free_addr }) := by
  unfold malloc
  rw [if_neg (by omega), if_pos hfull]

/-- The success path of `malloc`: when the signed comparison does not find
the wrapped `new_free_addr` above the region end, the data pointer is 8
past the aligned frontier, the header is written there, and the frontier
becomes the wrapped `new_free_addr`. -/
theorem malloc_succ_eq (h : Heap) (size : Nat) (hpos : 0 < size)
    (hfit : toSigned ((bump h.free_addr + (size + 8) % SIZE_T_MOD) % SIZE_T_MOD) ≤
      toSigned h.end_addr) :
    malloc h size =
      (some (bump h.free_addr + 8),
       { h with free_addr := (bump h.free_addr + (size + 8) % SIZE_T_MOD) % SIZE_T_MOD,
                mem := storeHeader h.mem (bump h.free_addr) size }) := by
  unfold malloc
  rw [if_neg (by omega), if_neg (by omega)]

/-! ## Claim C1 -/

/-- Claim C1, counterexample: the claim says a failed `allocate` leaves the
frontier exactly as it was.  On the heap fresh from `init` at base 4096 the
call `malloc(2147483648)` fails (the padded total passes the region end),
yet the frontier moves from 4096 to 4120: the alignment adjustment performed
before the exhaustion check is never rolled back. -/
theorem malloc_fail_changes_frontier :
    (malloc (initHeap 4096) 2147483648).1 = none ∧
    (initHeap 4096).free_addr = 4096 ∧
    (malloc (initHeap 4096) 2147483648).2.free_addr = 4120 := by
  decide

/-- Claim C1 (amended): for every request size > 0, if `allocate(size)`
fails because the code's exhaustion check fires (the signed comparison
finds the wrapped `new_free_addr` above the region end), it returns null
and leaves the frontier at the alignment-adjusted value `bump` of the old
frontier: the block itself consumes no address space, but the alignment
adjustment (up to 24 bytes forward, or up to 7 bytes backward when the old
frontier is 9 to 15 bytes past a 16-byte boundary) does persist. -/
theorem malloc_fail_frontier_aligned (h : Heap) (size : Nat) (hpos : 0 < size)
    (hfull : toSigned h.end_addr <
      toSigned ((bump h.free_addr + (size + 8) % SIZE_T_MOD) % SIZE_T_MOD)) :
    (malloc h size).1 = none ∧
    (malloc h size).2.free_addr = bump h.free_addr := by
  rw [malloc_fail_eq h size hpos hfull]
  exact ⟨rfl, rfl⟩

/-- Claim C1 (amended), witness: the amended statement instantiated on the
fresh heap at base 4096 with the failing request 2147483648. -/
theorem malloc_fail_frontier_aligned_witness :
    (malloc (initHeap 4096) 2147483648).1 = none ∧
    (malloc (initHeap 4096) 2147483648).2.free_addr =
      bump (initHeap 4096).free_addr :=
  malloc_fail_frontier_aligned (initHeap 4096) 2147483648 (by decide) (by decide)

/-! ## Claim C2 -/

/-- Claim C2: the claim says the frontier is monotonically non-decreasing
across every sequence of operations.  The code violates it: after
`malloc(9)` on the fresh heap at base 4096 the frontier is 4137 (which is
9 past a 16-byte boundary), and a following `malloc(2147483648)` fails
while moving the frontier backward to 4136, because the alignment branch
for `free_addr % 16 >= 8` computes `free_addr + 8 - r` and subtracts 1. -/
theorem frontier_decreases_on_failed_malloc :
    (malloc (initHeap 4096) 9).2.free_addr = 4137 ∧
    (malloc (malloc (initHeap 4096) 9).2 2147483648).1 = none ∧
    (malloc (malloc (initHeap 4096) 9).2 2147483648).2.free_addr = 4136 := by
  decide

/-! ## Claim C3 -/

/-- Claim C3: the claim says the occupied ranges
`[p - 8, p - 8 + 8 + size)` of distinct successful allocations are
disjoint.  The code violates it: on the fresh heap at base 4096,
`malloc(9)` returns 4128 (occupying `[4120, 4137)`) and the next
`malloc(1)` returns 4144 (occupying `[4136, 4145)`); byte 4136 lies in both
ranges, and the second header write changes that byte of the first block
from 0 to 1. -/
theorem allocations_overlap :
    (malloc (initHeap 4096) 9).1 = some 4128 ∧
    (malloc (malloc (initHeap 4096) 9).2 1).1 = some 4144 ∧
    4128 - 8 ≤ 4136 ∧ 4136 < 4128 - 8 + (8 + 9) ∧
    4144 - 8 ≤ 4136 ∧ 4136 < 4144 - 8 + (8 + 1) ∧
    (malloc (initHeap 4096) 9).2.mem 4136 = 0 ∧
    (malloc (malloc (initHeap 4096) 9).2 1).2.mem 4136 = 1 := by
  decide

/-! ## Claim C4 -/

/-- Claim C4: for every size > 0 (a `size_t`, hence below `2 ^ 64`), when
the region is not exhausted for that request (the code's own exhaustion
check does not fire: the signed comparison does not find the wrapped
`new_free_addr` above the region end), `allocate(size)` returns the
non-null pointer 8 bytes past the aligned frontier; that pointer is 16-byte
aligned, and the 8 header bytes immediately preceding it hold the requested
size (not the padded total). -/
theorem malloc_success_aligned_header (h : Heap) (size : Nat)
    (hpos : 0 < size) (hsz : size < SIZE_T_MOD)
    (hfit : toSigned ((bump h.free_addr + (size + 8) % SIZE_T_MOD) % SIZE_T_MOD) ≤
      toSigned h.end_addr) :
    (malloc h size).1 = some (bump h.free_addr + 8) ∧
    (bump h.free_addr + 8) % 16 = 0 ∧
    loadHeader (malloc h size).2.mem (bump h.free_addr + 8 - 8) = size := by
  have hb := bump_mod16 h.free_addr
  rw [malloc_succ_eq h size hpos hfit]
  refine ⟨rfl, by omega, ?_⟩
  show loadHeader (storeHeader h.mem (bump h.free_addr) size)
      (bump h.free_addr + 8 - 8) = size
  rw [Nat.add_sub_cancel, loadHeader_storeHeader]
  exact Nat.mod_eq_of_lt hsz

/-- Claim C4, witness: the statement instantiated on the fresh heap at base
4096 with request 9; the returned pointer is 4128 = 4120 + 8. -/
theorem malloc_success_aligned_header_witness :
    (malloc (initHeap 4096) 9).1 = some (bump (initHeap 4096).free_addr + 8) ∧
    (bump (initHeap 4096).free_addr + 8) % 16 = 0 ∧
    loadHeader (malloc (initHeap 4096) 9).2.mem
      (bump (initHeap 4096).free_addr + 8 - 8) = 9 :=
  malloc_success_aligned_header (initHeap 4096) 9 (by decide) (by decide) (by decide)

/-! ## Claim C9 -/

/-- Claim C9: on the reserved heap, `allocate(0)` always returns null with
no side effects at all: the state, hence the frontier and every heap byte,
is returned unchanged. -/
theorem malloc_zero_null_noop (h : Heap) : malloc h 0 = (none, h) := rfl

/-! ## Claim C5 -/

/-- Claim C5: the claim says a successful growing `resize` copies the old
contents intact: the first `old_size` bytes of the new block equal the
bytes that were at `p` before the call.  The code violates it: on the heap
at base 4096, `p = malloc(9) = 4128` and the mutator stores byte 55 at
`p + 8` (the last byte of the 9-byte block).  `realloc(p, 20)` then calls
`malloc(20)`, whose alignment step moves the frontier backward from 4137 to
4136, so the new header `[4136, 4144)` overwrites the old byte at 4136 with
20 (the low byte of the new size) before the copy runs; the returned block
at 4144 therefore holds 20, not 55, at offset 8. -/
theorem realloc_copy_corrupted :
    (malloc (initHeap 4096) 9).1 = some 4128 ∧
    (writeByte (malloc (initHeap 4096) 9).2 4136 55).mem 4136 = 55 ∧
    (realloc (writeByte (malloc (initHeap 4096) 9).2 4136 55)
      (some 4128) 20).1 = some 4144 ∧
    (realloc (writeByte (malloc (initHeap 4096) 9).2 4136 55)
      (some 4128) 20).2.mem 4152 = 20 := by
  decide

/-! ## Claim C6 -/

/-- Claim C6: for every pointer `p` whose header holds `old_size` and every
`new_size > old_size`, if the underlying `allocate(new_size)` fails (its
exhaustion check fires: the signed comparison finds the wrapped
`new_free_addr` above the region end), then `resize(p, new_size)` returns
null and no byte of memory changes: in particular the header at `p - 8`
still holds `old_size` and the `old_size` data bytes at `p` are
untouched. -/
theorem realloc_grow_fail_preserves_block (h : Heap) (p old_size new_size : Nat)
    (hhdr : loadHeader h.mem (p - 8) = old_size)
    (hlt : old_size < new_size)
    (hfull : toSigned h.end_addr <
      toSigned ((bump h.free_addr + (new_size + 8) % SIZE_T_MOD) % SIZE_T_MOD)) :
    (realloc h (some p) new_size).1 = none ∧
    (realloc h (some p) new_size).2.mem = h.mem ∧
    loadHeader (realloc h (some p) new_size).2.mem (p - 8) = old_size := by
  have heq : realloc h (some p) new_size =
      (none, { h with free_addr := bump h.free_addr }) := by
    simp only [realloc]
    rw [if_neg (by omega), hhdr, if_neg (by omega),
      malloc_fail_eq h new_size (by omega) hfull]
  rw [heq]
  exact ⟨rfl, rfl, hhdr⟩

/-- Claim C6, witness: instantiated after `malloc(9)` on the heap at base
4096, growing the block at 4128 to 2147483648 bytes, which exhausts the
region. -/
theorem realloc_grow_fail_preserves_block_witness :
    (realloc (malloc (initHeap 4096) 9).2 (some 4128) 2147483648).1 = none ∧
    (realloc (malloc (initHeap 4096) 9).2 (some 4128) 2147483648).2.mem =
      (malloc (initHeap 4096) 9).2.mem ∧
    loadHeader (realloc (malloc (initHeap 4096) 9).2 (some 4128) 2147483648).2.mem
      (4128 - 8) = 9 :=
  realloc_grow_fail_preserves_block (malloc (initHeap 4096) 9).2 4128 9 2147483648
    (by decide) (by decide) (by decide)

/-! ## Claim C7 -/

/-- Claim C7: for every pointer `p` whose header holds `old_size` and every
`new_size` with `0 < new_size <= old_size`, `resize(p, new_size)` returns
exactly `p` with the state completely unchanged (no allocation, no copy),
and the header at `p - 8` still holds `old_size`, not `new_size`. -/
theorem realloc_shrink_returns_same (h : Heap) (p old_size new_size : Nat)
    (hhdr : loadHeader h.mem (p - 8) = old_size)
    (hpos : 0 < new_size) (hle : new_size ≤ old_size) :
    realloc h (some p) new_size = (some p, h) ∧
    loadHeader (realloc h (some p) new_size).2.mem (p - 8) = old_size := by
  have heq : realloc h (some p) new_size = (some p, h) := by
    simp only [realloc]
    rw [if_neg (by omega), hhdr, if_pos hle]
  exact ⟨heq, by rw [heq]; exact hhdr⟩

/-- Claim C7, witness: instantiated after `malloc(9)` on the heap at base
4096, shrinking the block at 4128 to 5 bytes. -/
theorem realloc_shrink_returns_same_witness :
    realloc (malloc (initHeap 4096) 9).2 (some 4128) 5 =
      (some 4128, (malloc (initHeap 4096) 9).2) ∧
    loadHeader (realloc (malloc (initHeap 4096) 9).2 (some 4128) 5).2.mem
      (4128 - 8) = 9 :=
  realloc_shrink_returns_same (malloc (initHeap 4096) 9).2 4128 9 5
    (by decide) (by decide) (by decide)

/-! ## Claim C8 -/

/-- Claim C8, counterexample: the claim says `zero-allocate(count, size)`
returns the same pointer as `allocate(count * size)` would from the same
state.  With count = 2 ^ 63 + 1 and size = 2 the `size_t` product wraps to
2, so `calloc` returns the non-null pointer 4128 of a block whose header
records just 2 usable bytes, although `allocate` of the mathematical
product `2 ^ 64 + 2` (per the spec contract of allocate, `allocateSpec`)
returns null: no such block can ever fit the region. -/
theorem calloc_overflow_mismatch :
    (calloc (initHeap 4096) 9223372036854775809 2).1 = some 4128 ∧
    loadHeader (calloc (initHeap 4096) 9223372036854775809 2).2.mem 4120 = 2 ∧
    (allocateSpec (initHeap 4096) (9223372036854775809 * 2)).1 = none := by
  decide

/-- Claim C8 (amended): for every element count and element size whose
product does not overflow `size_t` (count * size < 2 ^ 64),
`zero-allocate(count, size)` returns the same pointer as
`allocate(count * size)` would from the same state, and on a non-null
result every one of the count * size bytes of the returned block is zero.
When the product overflows, `calloc` allocates only
`(count * size) mod 2 ^ 64` bytes instead. -/
theorem calloc_no_overflow_correct (h : Heap) (nmemb size : Nat)
    (hov : nmemb * size < SIZE_T_MOD) :
    (calloc h nmemb size).1 = (malloc h (nmemb * size)).1 ∧
    ∀ p i, (calloc h nmemb size).1 = some p → i < nmemb * size →
      (calloc h nmemb size).2.mem (p + i) = 0 := by
  have hmod : nmemb * size % SIZE_T_MOD = nmemb * size := Nat.mod_eq_of_lt hov
  have hcal : calloc h nmemb size =
      match malloc h (nmemb * size) with
      | (some p, h1) => (some p, { h1 with mem := memset h1.mem p 0 (nmemb * size) })
      | (none, h1) => (none, h1) := by
    unfold calloc
    rw [hmod]
  rcases hm : malloc h (nmemb * size) with ⟨op, h1⟩
  rw [hm] at hcal
  cases op with
  | none =>
      rw [hcal]
      refine ⟨rfl, ?_⟩
      intro p i hp _
      simp at hp
  | some q =>
      have heq : calloc h nmemb size =
          (some q, { h1 with mem := memset h1.mem q 0 (nmemb * size) }) := by
        rw [hcal]
      constructor
      · rw [heq]
      · intro p i hp hi
        rw [heq] at hp
        have hpq : q = p := by simpa using hp
        subst hpq
        rw [heq]
        exact memset_get h1.mem q 0 (nmemb * size) (q + i) (Nat.le_add_right q i)
          (by omega)

/-- Claim C8 (amended), witness: instantiated on the fresh heap at base
4096 with count 3 and size 4 (product 12, no overflow); the block is at
4128 and its byte at offset 5 is zero. -/
theorem calloc_no_overflow_correct_witness :
    (calloc (initHeap 4096) 3 4).1 = (malloc (initHeap 4096) (3 * 4)).1 ∧
    (calloc (initHeap 4096) 3 4).2.mem (4128 + 5) = 0 :=
  ⟨(calloc_no_overflow_correct (initHeap 4096) 3 4 (by decide)).1,
   (calloc_no_overflow_correct (initHeap 4096) 3 4 (by decide)).2 4128 5
     (by decide) (by decide)⟩

/-! ## Claim C10 -/

/-- Claim C10: for every pointer `p` whose header holds `old_size` and
every `new_size > old_size`, when the underlying `allocate(new_size)`
succeeds, `resize(p, new_size)` returns the fresh data pointer 8 bytes past
the bumped frontier, and that pointer differs from `p`.  The hypothesis
`p ≤ free_addr` states that the frontier is at or above the data pointer,
which holds for every pointer the allocator has handed out: when `p` was
returned the frontier moved to `p + old_size`, every successful later
operation moves it further up, and a failed one moves it by the alignment
adjustment, which never takes it below a handed-out data pointer. -/
theorem realloc_grow_returns_fresh (h : Heap) (p old_size new_size : Nat)
    (hhdr : loadHeader h.mem (p - 8) = old_size)
    (hlt : old_size < new_size)
    (hfit : toSigned ((bump h.free_addr + (new_size + 8) % SIZE_T_MOD) % SIZE_T_MOD) ≤
      toSigned h.end_addr)
    (hp : p ≤ h.free_addr) :
    (realloc h (some p) new_size).1 = some (bump h.free_addr + 8) ∧
    bump h.free_addr + 8 ≠ p := by
  have hb := bump_ge h.free_addr
  have heq : (realloc h (some p) new_size).1 = some (bump h.free_addr + 8) := by
    simp only [realloc]
    rw [if_neg (by omega), hhdr, if_neg (by omega),
      malloc_succ_eq h new_size (by omega) hfit]
  exact ⟨heq, by omega⟩

/-- Claim C10, witness: instantiated after `malloc(9)` on the heap at base
4096, growing the block at 4128 to 20 bytes; the result lands at 4144. -/
theorem realloc_grow_returns_fresh_witness :
    (realloc (malloc (initHeap 4096) 9).2 (some 4128) 20).1 =
      some (bump (malloc (initHeap 4096) 9).2.free_addr + 8) ∧
    bump (malloc (initHeap 4096) 9).2.free_addr + 8 ≠ 4128 :=
  realloc_grow_returns_fresh (malloc (initHeap 4096) 9).2 4128 9 20
    (by decide) (by decide) (by decide) (by decide)
